import Mathlib

/-!
Verification of the chat-relay endpoint of `src/src/api/main.py`.

The relay receives a validated `ChatRequests` body (a list of role/content
messages), converts each pydantic `Message` to a `{"role": ..., "content": ...}`
dictionary, issues one call to the external completion provider with a fixed
model identifier and a fixed `max_tokens` bound, and returns
`{"response": response.content[0].text}`.

The embedding models:
- the pydantic data model (`Message`, `ChatRequests`) and its JSON validation
  (required string fields, unrecognized fields ignored);
- the outbound provider call as an oracle function from the client
  configuration and the call arguments to either an SDK-level failure or a
  response carrying a list of content blocks;
- the handler body itself, threading the process-wide state through and
  recording the list of provider calls it makes.
-/

/-- A single chat message, as the pydantic model `Message` in
`src/src/api/main.py`: a `role` string and a `content` string. -/
structure Message where
  role : String
  content : String
deriving Repr, DecidableEq

/-- The full chat request body, as the pydantic model `ChatRequests`:
a list of `Message` values under the `messages` key. -/
structure ChatRequests where
  messages : List Message
deriving Repr, DecidableEq

/-- The dictionary `{"role": m.role, "content": m.content}` built by the list
comprehension in the handler: exactly the two keys sent to the provider. -/
structure ProviderMessage where
  role : String
  content : String
deriving Repr, DecidableEq

/-- One content block of the provider's reply; the handler reads its `.text`. -/
structure ContentBlock where
  text : String
deriving Repr, DecidableEq

/-- The provider's successful reply object: a list of content blocks
(`response.content` in the handler). -/
structure ProviderResponse where
  content : List ContentBlock
deriving Repr, DecidableEq

/-- An SDK-level failure of the outbound provider call (network failure,
non-success status, quota rejection): the exception raised by
`client.messages.create`. -/
structure ProviderError where
  msg : String
deriving Repr, DecidableEq

/-- The provider client configuration held by the global `client` object:
the API key it was constructed with. -/
structure ClientConfig where
  apiKey : String
deriving Repr, DecidableEq

/-- The process-wide state visible to the handler: the global `client`.
The module assigns it once at import time and the handler only reads it. -/
structure ServerState where
  client : ClientConfig
deriving Repr, DecidableEq

/-- The arguments of one `client.messages.create` call: the keyword arguments
`model`, `max_tokens` and `messages` passed in the handler. -/
structure ProviderCall where
  model : String
  max_tokens : Nat
  messages : List ProviderMessage
deriving Repr, DecidableEq

/-- The external completion provider, as an oracle: given the configured
client and the call arguments, it either raises an SDK failure or returns a
reply object. -/
def Provider : Type :=
  ClientConfig → ProviderCall → Except ProviderError ProviderResponse

/-- An error surfaced by one handler invocation: either the propagated SDK
exception from the provider call, or the Python `IndexError` raised by
`response.content[0]` when the reply has no content blocks. -/
inductive ChatError where
  | providerError (e : ProviderError)
  | indexError
deriving Repr, DecidableEq

/-- The JSON success body `{"response": ...}` returned by the handler. -/
structure ChatResponseBody where
  response : String
deriving Repr, DecidableEq

/-- The observable outcome of one handler invocation: the result (success body
or error), the list of provider calls issued, and the process state after the
invocation. -/
structure ChatOutcome where
  result : Except ChatError ChatResponseBody
  calls : List ProviderCall
  state : ServerState
deriving Repr

/-- The fixed model identifier passed to every provider call. -/
def modelId : String := "claude-sonnet-4-20250514"

/-- The fixed maximum output-token bound passed to every provider call. -/
def maxOutputTokens : Nat := 1024

/-- The conversion performed by the handler's list comprehension:
`[{"role": m.role, "content": m.content} for m in request.messages]`. -/
def forwardedMessages (request : ChatRequests) : List ProviderMessage :=
  request.messages.map (fun m => { role := m.role, content := m.content })

/-- The single `client.messages.create` call the handler issues for a
request: fixed model, fixed `max_tokens`, and the converted message list. -/
def theProviderCall (request : ChatRequests) : ProviderCall :=
  { model := modelId, max_tokens := maxOutputTokens,
    messages := forwardedMessages request }

/-- The body of the `chat` handler in `src/src/api/main.py`: convert the
messages, issue one provider call, and return
`{"response": response.content[0].text}`. An SDK exception propagates
unhandled; `response.content[0]` on an empty list raises `IndexError`.
The process state is threaded through unchanged since the handler assigns
no global. -/
def chat (st : ServerState) (create : Provider) (request : ChatRequests) :
    ChatOutcome :=
  let call := theProviderCall request
  match create st.client call with
  | .error e => { result := .error (.providerError e), calls := [call], state := st }
  | .ok response =>
    match response.content with
    | [] => { result := .error .indexError, calls := [call], state := st }
    | block :: _ => { result := .ok { response := block.text }, calls := [call], state := st }

/-- A JSON value, as carried by the inbound request body. -/
inductive Json where
  | str (s : String)
  | num (n : Int)
  | bool (b : Bool)
  | null
  | arr (xs : List Json)
  | obj (fields : List (String × Json))

/-- A rejection by the inbound pydantic validation layer (an HTTP 422). -/
inductive ValidationError where
  | invalid
deriving Repr, DecidableEq

/-- Pydantic validation of one `Message`: the body must be an object with a
string `role` field and a string `content` field; fields with any other key
are ignored (pydantic's default extra-field policy) and do not survive into
the model instance. -/
def validateMessage : Json → Except ValidationError Message
  | .obj fields =>
    match fields.lookup "role", fields.lookup "content" with
    | some (.str r), some (.str c) => .ok { role := r, content := c }
    | _, _ => .error .invalid
  | _ => .error .invalid

/-- Pydantic validation of each element of the `messages` array in turn. -/
def validateMessages : List Json → Except ValidationError (List Message)
  | [] => .ok []
  | j :: rest =>
    match validateMessage j, validateMessages rest with
    | .ok m, .ok ms => .ok (m :: ms)
    | .error e, _ => .error e
    | .ok _, .error e => .error e

/-- Pydantic validation of the full `ChatRequests` body: an object with a
`messages` field holding an array of valid messages; other keys ignored. -/
def validateChatRequests : Json → Except ValidationError ChatRequests
  | .obj fields =>
    match fields.lookup "messages" with
    | some (.arr xs) =>
      match validateMessages xs with
      | .ok ms => .ok { messages := ms }
      | .error e => .error e
    | _ => .error .invalid
  | _ => .error .invalid

/-- The observable outcome at the public `/chat` interface: either the
validation layer rejects the body before the handler runs, or the handler
runs on the validated request. -/
inductive HttpOutcome where
  | validationFailure (e : ValidationError)
  | handled (o : ChatOutcome)
deriving Repr

/-- The public `POST /chat` interface: FastAPI validates the JSON body
against `ChatRequests` and, on success, invokes the `chat` handler. -/
def chatEndpoint (st : ServerState) (create : Provider) (body : Json) :
    HttpOutcome :=
  match validateChatRequests body with
  | .error e => .validationFailure e
  | .ok request => .handled (chat st create request)

/-- A startup failure of the relay process. -/
inductive StartupError where
  | missingApiKey
deriving Repr, DecidableEq

/-- Modelled from the spec: the external provider SDK client constructor
(`Anthropic(api_key=...)`), which is not part of this repository. Per the
spec's configuration contract, constructing the client without the secret
credential is a fatal condition, so the constructor fails when the key is
absent and otherwise yields a client holding the key. -/
def anthropicInit (apiKey : Option String) : Except StartupError ClientConfig :=
  match apiKey with
  | none => .error .missingApiKey
  | some k => .ok { apiKey := k }

/-- The module-level startup of `src/src/api/main.py`: read the
`ANTHROPIC_API_KEY` environment variable and construct the global `client`.
A constructor failure aborts the import, so the process never starts. -/
def startup (env : String → Option String) : Except StartupError ServerState :=
  match anthropicInit (env "ANTHROPIC_API_KEY") with
  | .error e => .error e
  | .ok c => .ok { client := c }

/-! ## Helper lemmas shared by the claim theorems -/

/-- The handler issues exactly the one provider call, on every path. -/
theorem chat_calls_eq (st : ServerState) (create : Provider)
    (request : ChatRequests) :
    (chat st create request).calls = [theProviderCall request] := by
  simp only [chat]
  split
  · rfl
  · split
    · rfl
    · rfl

/-- The handler leaves the process state untouched, on every path. -/
theorem chat_state_eq (st : ServerState) (create : Provider)
    (request : ChatRequests) :
    (chat st create request).state = st := by
  simp only [chat]
  split
  · rfl
  · split
    · rfl
    · rfl

/-- When the provider call raises, the handler's result is that failure,
propagated unhandled. -/
theorem chat_result_of_error (st : ServerState) (create : Provider)
    (request : ChatRequests) (e : ProviderError)
    (h : create st.client (theProviderCall request) = .error e) :
    (chat st create request).result = .error (.providerError e) := by
  simp only [chat, h]

/-- When the provider call succeeds, the handler's result is determined by
the reply's content list alone. -/
theorem chat_result_of_ok (st : ServerState) (create : Provider)
    (request : ChatRequests) (resp : ProviderResponse)
    (h : create st.client (theProviderCall request) = .ok resp) :
    (chat st create request).result =
      match resp.content with
      | [] => .error .indexError
      | block :: _ => .ok { response := block.text } := by
  simp only [chat, h]
  cases resp.content with
  | nil => rfl
  | cons block rest => rfl

/-- Converting a message list to provider dictionaries preserves the
sequence of role/content pairs exactly. -/
theorem forwardedMessages_pairs (request : ChatRequests) :
    (forwardedMessages request).map (fun m => (m.role, m.content)) =
      request.messages.map (fun m => (m.role, m.content)) := by
  simp [forwardedMessages, List.map_map, Function.comp]

/-! ## Claim theorems -/

/-- C2: for every valid non-empty ordered sequence of chat turns, the relay
transmits to the provider a message list equal in order, roles, and content
text to the input sequence — the single call it issues carries exactly the
input turns, with no reordering, deduplication, or modification. -/
theorem chat_forwards_turns_in_order (st : ServerState) (create : Provider)
    (request : ChatRequests) (_h : request.messages ≠ []) :
    (chat st create request).calls = [theProviderCall request] ∧
    (theProviderCall request).messages.map (fun m => (m.role, m.content)) =
      request.messages.map (fun m => (m.role, m.content)) :=
  ⟨chat_calls_eq st create request, forwardedMessages_pairs request⟩

/-- Witness for C2 at the request `[{"role":"user","content":"Hello!"}]`
with a stub provider. -/
theorem chat_forwards_turns_in_order_witness :
    (chat { client := { apiKey := "k" } }
        (fun _ _ => .ok { content := [{ text := "Hi there!" }] })
        { messages := [{ role := "user", content := "Hello!" }] }).calls =
      [theProviderCall { messages := [{ role := "user", content := "Hello!" }] }] ∧
    (theProviderCall { messages := [{ role := "user", content := "Hello!" }] }).messages.map
        (fun m => (m.role, m.content)) =
      [{ role := "user", content := "Hello!" : Message }].map (fun m => (m.role, m.content)) :=
  chat_forwards_turns_in_order { client := { apiKey := "k" } }
    (fun _ _ => .ok { content := [{ text := "Hi there!" }] })
    { messages := [{ role := "user", content := "Hello!" }] } (by decide)

/-- C3: on success, the relay returns the body `{"response": r}` where `r`
is exactly the text of the first content block of the provider's reply,
verbatim. -/
theorem chat_returns_first_block_verbatim (st : ServerState) (create : Provider)
    (request : ChatRequests) (resp : ProviderResponse)
    (block : ContentBlock) (rest : List ContentBlock)
    (h : create st.client (theProviderCall request) = .ok resp)
    (hc : resp.content = block :: rest) :
    (chat st create request).result = .ok { response := block.text } := by
  rw [chat_result_of_ok st create request resp h, hc]

/-- Witness for C3: the scenario with input message "Hello!" and a stub
provider returning the single text block "Hi there!". -/
theorem chat_returns_first_block_verbatim_witness :
    (chat { client := { apiKey := "k" } }
        (fun _ _ => .ok { content := [{ text := "Hi there!" }] })
        { messages := [{ role := "user", content := "Hello!" }] }).result =
      .ok { response := "Hi there!" } :=
  chat_returns_first_block_verbatim { client := { apiKey := "k" } }
    (fun _ _ => .ok { content := [{ text := "Hi there!" }] })
    { messages := [{ role := "user", content := "Hello!" }] }
    { content := [{ text := "Hi there!" }] } { text := "Hi there!" } [] rfl rfl

/-- C5: every invocation issues exactly one provider call, and when that
call fails the failure is surfaced as the propagated provider error, with
no retry. -/
theorem chat_single_call_no_retry (st : ServerState) (create : Provider)
    (request : ChatRequests) :
    (chat st create request).calls.length = 1 ∧
    ∀ e, create st.client (theProviderCall request) = .error e →
      (chat st create request).result = .error (.providerError e) := by
  refine ⟨?_, fun e h => chat_result_of_error st create request e h⟩
  rw [chat_calls_eq st create request]
  rfl

/-- Witness for C5 with a stub provider that always fails. -/
theorem chat_single_call_no_retry_witness :
    (chat { client := { apiKey := "k" } } (fun _ _ => .error { msg := "boom" })
        { messages := [{ role := "user", content := "Hello!" }] }).calls.length = 1 ∧
    (chat { client := { apiKey := "k" } } (fun _ _ => .error { msg := "boom" })
        { messages := [{ role := "user", content := "Hello!" }] }).result =
      .error (.providerError { msg := "boom" }) :=
  ⟨(chat_single_call_no_retry { client := { apiKey := "k" } }
      (fun _ _ => .error { msg := "boom" })
      { messages := [{ role := "user", content := "Hello!" }] }).1,
   (chat_single_call_no_retry { client := { apiKey := "k" } }
      (fun _ _ => .error { msg := "boom" })
      { messages := [{ role := "user", content := "Hello!" }] }).2
     { msg := "boom" } rfl⟩

/-- C6: the single provider call of every invocation carries the fixed
model identifier "claude-sonnet-4-20250514" and the fixed maximum
output-token bound 1024, the same two constants for all requests. -/
theorem chat_fixed_model_and_max_tokens (st : ServerState) (create : Provider)
    (request other : ChatRequests) :
    (chat st create request).calls = [theProviderCall request] ∧
    (theProviderCall request).model = "claude-sonnet-4-20250514" ∧
    (theProviderCall request).max_tokens = 1024 ∧
    (theProviderCall request).model = (theProviderCall other).model ∧
    (theProviderCall request).max_tokens = (theProviderCall other).max_tokens :=
  ⟨chat_calls_eq st create request, rfl, rfl, rfl, rfl⟩

/-- C1 (failing behavior of the code): when the provider's reply contains
zero content blocks, the handler's `response.content[0]` raises the Python
`IndexError` (an out-of-bounds access); no distinct
MalformedProviderResponse error exists in the code. -/
theorem chat_empty_content_raises_index_error (st : ServerState)
    (create : Provider) (request : ChatRequests) (resp : ProviderResponse)
    (h : create st.client (theProviderCall request) = .ok resp)
    (hc : resp.content = []) :
    (chat st create request).result = .error .indexError := by
  rw [chat_result_of_ok st create request resp h, hc]

/-- Witness for C1: a stub provider returning a reply with an empty content
list makes the handler crash with the index error. -/
theorem chat_empty_content_raises_index_error_witness :
    (chat { client := { apiKey := "k" } } (fun _ _ => .ok { content := [] })
        { messages := [{ role := "user", content := "Hello!" }] }).result =
      .error .indexError :=
  chat_empty_content_raises_index_error { client := { apiKey := "k" } }
    (fun _ _ => .ok { content := [] })
    { messages := [{ role := "user", content := "Hello!" }] }
    { content := [] } rfl rfl

/-- C4 counterexample: a request whose turn carries the role "wizard" —
neither "user" nor "assistant" — passes validation at the public interface
and is forwarded to the provider unchanged, so it is not rejected before
the relay logic runs. -/
theorem chat_accepts_unrecognized_role_counterexample :
    validateChatRequests
        (.obj [("messages",
          .arr [.obj [("role", .str "wizard"), ("content", .str "hi")]])]) =
      .ok { messages := [{ role := "wizard", content := "hi" }] } ∧
    (chat { client := { apiKey := "k" } }
        (fun _ _ => .ok { content := [{ text := "ok" }] })
        { messages := [{ role := "wizard", content := "hi" }] }).calls =
      [{ model := modelId, max_tokens := maxOutputTokens,
         messages := [{ role := "wizard", content := "hi" }] }] ∧
    "wizard" ≠ "user" ∧ "wizard" ≠ "assistant" :=
  ⟨rfl, rfl, by decide, by decide⟩

/-- C4 amended: validation constrains a turn's role only to be a string —
any role value, recognized or not, is accepted, and every accepted turn's
role is forwarded to the provider verbatim. -/
theorem chat_role_not_restricted_amended (r c : String)
    (request : ChatRequests) :
    validateMessage (.obj [("role", .str r), ("content", .str c)]) =
      .ok { role := r, content := c } ∧
    (theProviderCall request).messages.map ProviderMessage.role =
      request.messages.map Message.role := by
  constructor
  · rfl
  · simp [theProviderCall, forwardedMessages, List.map_map, Function.comp]

/-- C7: an empty messages list is not rejected: the empty body passes
validation, and the handler forwards the empty list to the provider in its
single call. -/
theorem chat_empty_messages_forwarded (st : ServerState) (create : Provider) :
    validateChatRequests (.obj [("messages", .arr [])]) =
      .ok { messages := [] } ∧
    (chat st create { messages := [] }).calls =
      [{ model := modelId, max_tokens := maxOutputTokens, messages := [] }] := by
  refine ⟨rfl, ?_⟩
  rw [chat_calls_eq st create { messages := [] }]
  rfl

/-- C9: an invocation leaves the process state unchanged, issues exactly the
one provider call, and its result depends only on the provider's answer to
that call — two providers agreeing on the request's call give the same
result. -/
theorem chat_no_shared_state_mutation (st : ServerState)
    (create other : Provider) (request : ChatRequests)
    (h : create st.client (theProviderCall request) =
      other st.client (theProviderCall request)) :
    (chat st create request).state = st ∧
    (chat st create request).calls = [theProviderCall request] ∧
    (chat st create request).result = (chat st other request).result := by
  refine ⟨chat_state_eq st create request, chat_calls_eq st create request, ?_⟩
  simp only [chat, h]

/-- Witness for C9: two syntactically distinct stub providers agreeing on
the call produce identical results, with the state untouched. -/
theorem chat_no_shared_state_mutation_witness :
    (chat { client := { apiKey := "k" } }
        (fun _ _ => .ok { content := [{ text := "pong" }] })
        { messages := [{ role := "user", content := "ping" }] }).state =
      { client := { apiKey := "k" } } ∧
    (chat { client := { apiKey := "k" } }
        (fun _ _ => .ok { content := [{ text := "pong" }] })
        { messages := [{ role := "user", content := "ping" }] }).calls =
      [theProviderCall { messages := [{ role := "user", content := "ping" }] }] ∧
    (chat { client := { apiKey := "k" } }
        (fun _ _ => .ok { content := [{ text := "pong" }] })
        { messages := [{ role := "user", content := "ping" }] }).result =
      (chat { client := { apiKey := "k" } }
        (fun _cfg _call => .ok { content := [{ text := "pong" }] })
        { messages := [{ role := "user", content := "ping" }] }).result :=
  chat_no_shared_state_mutation { client := { apiKey := "k" } }
    (fun _ _ => .ok { content := [{ text := "pong" }] })
    (fun _cfg _call => .ok { content := [{ text := "pong" }] })
    { messages := [{ role := "user", content := "ping" }] } rfl

/-- C10: a message object carrying extra, unrecognized JSON fields besides
its string `role` and `content` is not rejected: validation succeeds,
discarding the extras, and the forwarded provider message carries only the
role and content. -/
theorem chat_ignores_extra_fields (fields : List (String × Json))
    (r c : String)
    (hr : fields.lookup "role" = some (.str r))
    (hc : fields.lookup "content" = some (.str c)) :
    validateMessage (.obj fields) = .ok { role := r, content := c } ∧
    forwardedMessages { messages := [{ role := r, content := c }] } =
      [{ role := r, content := c }] := by
  refine ⟨?_, rfl⟩
  simp only [validateMessage, hr, hc]

/-- Witness for C10: a message with an extra "mood" field validates and
only its role and content survive. -/
theorem chat_ignores_extra_fields_witness :
    validateMessage (.obj [("role", .str "user"), ("content", .str "hi"),
        ("mood", .str "happy")]) =
      .ok { role := "user", content := "hi" } ∧
    forwardedMessages { messages := [{ role := "user", content := "hi" }] } =
      [{ role := "user", content := "hi" }] :=
  chat_ignores_extra_fields
    [("role", .str "user"), ("content", .str "hi"), ("mood", .str "happy")]
    "user" "hi" rfl rfl

/-- C8: startup fails with the missing-key error exactly when the provider
API key is absent from the environment, and succeeds — yielding the state
every request handler needs — exactly when it is present, so absence of the
credential is fatal at startup and never a per-request condition. -/
theorem startup_missing_key_fatal (env : String → Option String) :
    (startup env = .error .missingApiKey ↔ env "ANTHROPIC_API_KEY" = none) ∧
    ∀ k, env "ANTHROPIC_API_KEY" = some k →
      startup env = .ok { client := { apiKey := k } } := by
  constructor
  · constructor
    · intro h
      cases he : env "ANTHROPIC_API_KEY" with
      | none => rfl
      | some k => simp [startup, anthropicInit, he] at h
    · intro h
      simp [startup, anthropicInit, h]
  · intro k h
    simp [startup, anthropicInit, h]

/-- Witness for C8: an empty environment makes startup fail fatally, and an
environment holding a key makes it succeed. -/
theorem startup_missing_key_fatal_witness :
    startup (fun _ => none) = .error .missingApiKey ∧
    startup (fun _ => some "sk-test") = .ok { client := { apiKey := "sk-test" } } :=
  ⟨(startup_missing_key_fatal (fun _ => none)).1.mpr rfl,
   (startup_missing_key_fatal (fun _ => some "sk-test")).2 "sk-test" rfl⟩
